import Mathlib

/-!
Shallow embedding of the harambe-system SACCO back office (TypeScript sources
under `src/`): the domain service layer (`src/lib/sacco-services.ts`), the
report engine (`src/db/index.ts`), the export formatter (`src/lib/downloads.ts`)
and the login route (`src/app/api/login/route.ts`), together with theorems
checking the natural-language specification against this embedding.

Modelling conventions:
* the relational datastore is a record of lists of rows, one list per table;
* JavaScript numbers are rationals (`ℚ`), timestamps are `Int` milliseconds;
* nullable columns are `Option`-typed, SQL `SUM` over zero rows is `none`,
  and JavaScript truthiness (`null`/`0`/`""` are falsy) is modelled explicitly;
* fallible service functions return `Except`/a result paired with the updated
  datastore, so that both thrown errors and persisted writes are visible.
-/

namespace Sacco

/-- JavaScript `Math.round` on a rational: floor of `x + 1/2`. -/
def jsRound (x : ℚ) : ℤ := ⌊x + 1/2⌋

/-- SQL `SUM(col)` over a result set: `NULL` (`none`) when no rows match. -/
def sqlSum (l : List ℚ) : Option ℚ := if l.isEmpty then none else some l.sum

/-- JavaScript truthiness of a nullable numeric SQL result: `null` and `0` are falsy. -/
def truthyNum : Option ℚ → Bool
  | none => false
  | some v => v != 0

/-- JavaScript truthiness of a nullable integer column: `null` and `0` are falsy. -/
def truthyInt : Option ℤ → Bool
  | none => false
  | some v => v != 0

/-- JavaScript truthiness of a nullable string: `null`/`undefined` and `""` are falsy. -/
def truthyStr : Option String → Bool
  | none => false
  | some s => s != ""

/-- SQL comparison `dateCol < t` on a nullable timestamp column: `NULL` compares false. -/
def sqlLtDate : Option Int → Int → Bool
  | none, _ => false
  | some d, t => d < t

/-- Row of the `members` table (`src/db/schema.ts`). Only the columns the
modelled operations read are kept. -/
structure Member where
  id : Nat
  memberNumber : String
  firstName : String := ""
  lastName : String := ""
  email : Option String := none
  phone : Option String := none
  passwordHash : Option String := none
  isActive : Bool := true
  joinedAt : Option Int := none
  lastLoginAt : Option Int := none
deriving DecidableEq

/-- Row of the `savings` table. -/
structure SavingsRow where
  id : Nat
  memberId : Nat
  accountNumber : String := ""
  balance : ℚ := 0
  isActive : Bool := true
deriving DecidableEq

/-- Row of the `loans` table. -/
structure LoanRow where
  id : Nat
  memberId : Nat
  loanNumber : String := ""
  principalAmount : ℚ := 0
  interestRate : ℚ := 0
  interestAmount : ℚ := 0
  totalAmount : ℚ := 0
  paidAmount : ℚ := 0
  balance : ℚ := 0
  termMonths : ℤ := 0
  installmentAmount : ℚ := 0
  status : String := "pending"
  purpose : Option String := none
  appliedAt : Option Int := none
  approvedAt : Option Int := none
  disbursedAt : Option Int := none
  dueDate : Option Int := none
deriving DecidableEq

/-- Row of the `transactions` table. -/
structure TransactionRow where
  id : Nat
  memberId : Option Nat := none
  transactionType : String
  amount : ℚ := 0
  transactionDate : Option Int := none
deriving DecidableEq

/-- Row of the `credit_checks` table, as inserted by `performCreditCheck`. -/
structure CreditCheckRow where
  id : Nat
  memberId : Nat
  creditScore : ℤ
  existingLoans : ℚ
  latePayments : Nat
  status : String
  checkedAt : Int
deriving DecidableEq

/-- Row of the `loan_restructuring` table. -/
structure RestructureRow where
  id : Nat
  loanId : Nat
  restructuringType : String := "extension"
  originalTerm : Option ℤ := none
  newTerm : Option ℤ := none
  originalInstallment : Option ℚ := none
  newInstallment : Option ℚ := none
  status : String := "pending"
  approvedBy : Option String := none
  approvedAt : Option Int := none
deriving DecidableEq

/-- Row of the `audit_logs` table (fields written by `logAuditTrail`). -/
structure AuditLogRow where
  id : Nat
  userId : Option Nat := none
  action : String
  entityType : String
  entityId : Option Nat := none
deriving DecidableEq

/-- The datastore: one list of rows per table plus a surrogate-id counter. -/
structure DB where
  members : List Member := []
  savings : List SavingsRow := []
  loans : List LoanRow := []
  transactions : List TransactionRow := []
  creditChecks : List CreditCheckRow := []
  loanRestructuring : List RestructureRow := []
  auditLogs : List AuditLogRow := []
  nextId : Nat := 1
deriving DecidableEq

/-- Domain-service error conditions (the `throw new Error(...)` sites of
`src/lib/sacco-services.ts`). -/
inductive ServiceError where
  | memberNotFound
  | creditCheckFailed
  | exceedsLimit (maxLoan : ℚ)
  | loanNotFound
  | restructureNotFound
  | restructureTermsNotSet
deriving DecidableEq

/-- Balances of the member's `disbursed` loans
(`performCreditCheck`, sacco-services.ts lines 41-52). -/
def disbursedLoanBalances (st : DB) (memberId : Nat) : List ℚ :=
  (st.loans.filter (fun l => l.memberId == memberId && l.status == "disbursed")).map
    (fun l => l.balance)

/-- Balances of the member's active savings accounts
(`performCreditCheck`, sacco-services.ts lines 55-63). -/
def activeSavingsBalances (st : DB) (memberId : Nat) : List ℚ :=
  (st.savings.filter (fun s => s.memberId == memberId && s.isActive)).map
    (fun s => s.balance)

/-- Count of the member's `loan_repayment` transactions dated before `now`
(`performCreditCheck`, sacco-services.ts lines 81-90; the date filter is the
always-true-for-past-rows filter noted in the spec). -/
def lateRepaymentCount (st : DB) (memberId : Nat) (now : Int) : Nat :=
  (st.transactions.filter (fun t =>
    t.memberId == some memberId && t.transactionType == "loan_repayment" &&
      sqlLtDate t.transactionDate now)).length

/-- The raw (unclamped, unrounded) credit score computed by `performCreditCheck`
(sacco-services.ts lines 65-94): start at 100, deduct `min 50 (balance/10000)`
for existing disbursed loans, 20 more if `loanAmount/savings > 3` and 30 more if
`> 5`, and `min 30 (5 * lateCount)` for repayment history. -/
def rawCreditScore (st : DB) (memberId : Nat) (loanAmount : ℚ) (now : Int) : ℚ :=
  let totalBalance := sqlSum (disbursedLoanBalances st memberId)
  let savingsTotal := sqlSum (activeSavingsBalances st memberId)
  let s1 : ℚ := 100
  let s2 := if truthyNum totalBalance then s1 - min 50 (totalBalance.getD 0 / 10000) else s1
  let s3 :=
    if truthyNum savingsTotal then
      let ratio := loanAmount / savingsTotal.getD 0
      let a := if ratio > 3 then s2 - 20 else s2
      if ratio > 5 then a - 30 else a
    else s2
  let c := lateRepaymentCount st memberId now
  if c ≠ 0 then s3 - min 30 ((c : ℚ) * 5) else s3

/-- `performCreditCheck(memberId, loanAmount)` (sacco-services.ts lines 35-111):
fails when the member is absent; otherwise inserts a credit-check row whose
`creditScore` is `max(0, min(100, round(raw)))` and whose `status` is
`'passed'` when the raw score is `≥ 50` (the status test reads the raw score,
not the rounded one), and returns it. -/
def performCreditCheck (st : DB) (memberId : Nat) (loanAmount : ℚ) (now : Int) :
    Except ServiceError (CreditCheckRow × DB) :=
  if (st.members.find? (fun m => m.id == memberId)).isNone then
    .error .memberNotFound
  else
    let raw := rawCreditScore st memberId loanAmount now
    let row : CreditCheckRow :=
      { id := st.nextId
        memberId := memberId
        creditScore := max 0 (min 100 (jsRound raw))
        existingLoans := (sqlSum (disbursedLoanBalances st memberId)).getD 0
        latePayments := lateRepaymentCount st memberId now
        status := if raw ≥ 50 then "passed" else "failed"
        checkedAt := now }
    .ok (row, { st with creditChecks := st.creditChecks ++ [row], nextId := st.nextId + 1 })

/-- Balance of the first active savings row returned for the member
(`quickLoanApproval`, sacco-services.ts lines 369-380: array destructuring
takes the first row; `Number(savingsAccount?.balance || 0)`). -/
def firstActiveSavingsBalance (st : DB) (memberId : Nat) : ℚ :=
  match (st.savings.filter (fun s => s.memberId == memberId && s.isActive)).head? with
  | none => 0
  | some s => s.balance

/-- `quickLoanApproval(memberId, amount, purpose)` (sacco-services.ts lines
360-419): runs the credit check first, rejects a non-`passed` status, then
rejects `amount > 3 ×` the first active savings balance, and otherwise inserts
a 12-month `approved` loan (rate 1.0 if the persisted score is `≥ 80`, else
1.5) plus an audit-log row. The returned datastore carries every row the call
persisted before succeeding or throwing. -/
def quickLoanApproval (st : DB) (memberId : Nat) (amount : ℚ) (purpose : String)
    (now : Int) (loanNumber : String) : Except ServiceError LoanRow × DB :=
  match performCreditCheck st memberId amount now with
  | .error e => (.error e, st)
  | .ok (cc, st1) =>
    if cc.status != "passed" then
      (.error .creditCheckFailed, st1)
    else
      let maxLoan := firstActiveSavingsBalance st1 memberId * 3
      if amount > maxLoan then
        (.error (.exceedsLimit maxLoan), st1)
      else
        let interestRate : ℚ := if cc.creditScore ≥ 80 then 1 else 3/2
        let interestAmount := amount * (interestRate / 100) * 12
        let totalAmount := amount + interestAmount
        let installmentAmount := totalAmount / 12
        let loan : LoanRow :=
          { id := st1.nextId
            memberId := memberId
            loanNumber := loanNumber
            principalAmount := amount
            interestRate := interestRate
            interestAmount := interestAmount
            totalAmount := totalAmount
            paidAmount := 0
            balance := totalAmount
            termMonths := 12
            installmentAmount := installmentAmount
            status := "approved"
            purpose := some purpose
            appliedAt := some now
            approvedAt := some now
            disbursedAt := none
            dueDate := some (now + 365 * 24 * 60 * 60 * 1000) }
        let audit : AuditLogRow :=
          { id := st1.nextId + 1
            userId := some memberId
            action := "loan_approved"
            entityType := "loan"
            entityId := some loan.id }
        (.ok loan,
          { st1 with
            loans := st1.loans ++ [loan]
            auditLogs := st1.auditLogs ++ [audit]
            nextId := st1.nextId + 2 })

/-- `approveLoanRestructuring(restructureId, approvedBy)` (sacco-services.ts
lines 681-716): fails when the row is absent or its new-term/new-installment
fields are unset (JS-falsy); otherwise overwrites the loan's term and
installment, marks the restructuring `approved`, and writes an audit-log row.
No check of the restructuring's current `status` is performed. -/
def approveLoanRestructuring (st : DB) (restructureId : Nat) (approvedBy : String)
    (now : Int) : Except ServiceError Unit × DB :=
  match st.loanRestructuring.find? (fun r => r.id == restructureId) with
  | none => (.error .restructureNotFound, st)
  | some r =>
    if !truthyInt r.newTerm || !truthyNum r.newInstallment then
      (.error .restructureTermsNotSet, st)
    else
      let st1 := { st with
        loans := st.loans.map (fun (l : LoanRow) =>
          if l.id == r.loanId then
            { l with termMonths := r.newTerm.getD 0, installmentAmount := r.newInstallment.getD 0 }
          else l) }
      let st2 := { st1 with
        loanRestructuring := st1.loanRestructuring.map (fun (x : RestructureRow) =>
          if x.id == restructureId then
            { x with status := "approved", approvedAt := some now, approvedBy := some approvedBy }
          else x) }
      let audit : AuditLogRow :=
        { id := st2.nextId
          userId := none
          action := "restructure_approved"
          entityType := "loan"
          entityId := some r.loanId }
      (.ok (), { st2 with auditLogs := st2.auditLogs ++ [audit], nextId := st2.nextId + 1 })

/-- Request body of `POST /api/login` (`src/app/api/login/route.ts`). -/
structure LoginRequest where
  email : Option String := none
  phone : Option String := none
  memberNumber : Option String := none
  password : Option String := none
deriving DecidableEq

/-- Outcome of `POST /api/login`: HTTP 400, HTTP 401, or HTTP 200 with the
member record (minus `passwordHash`). -/
inductive LoginResponse where
  | badRequest (msg : String)
  | unauthorized (msg : String)
  | ok (member : Member)
deriving DecidableEq

/-- Member lookup of the login route (route.ts lines 26-40): by email when a
truthy email is supplied, else by phone, else by member number. -/
def loginLookup (st : DB) (req : LoginRequest) : Option Member :=
  if truthyStr req.email then
    st.members.find? (fun m => m.email == req.email)
  else if truthyStr req.phone then
    st.members.find? (fun m => m.phone == req.phone)
  else
    st.members.find? (fun m => some m.memberNumber == req.memberNumber)

/-- `POST /api/login` (`src/app/api/login/route.ts` lines 6-77): requires an
identifier and a password, resolves the member, rejects a wrong password only
when a truthy `passwordHash` is stored, updates `lastLoginAt`, and returns the
member as fetched (without `passwordHash`). -/
def loginPOST (st : DB) (req : LoginRequest) (now : Int) : LoginResponse × DB :=
  if !(truthyStr req.email || truthyStr req.phone || truthyStr req.memberNumber) then
    (.badRequest "Please provide email, phone number, or member number", st)
  else if !truthyStr req.password then
    (.badRequest "Password is required", st)
  else
    match loginLookup st req with
    | none => (.unauthorized "Member not found. Please check your credentials.", st)
    | some m =>
      if truthyStr m.passwordHash && m.passwordHash != req.password then
        (.unauthorized "Invalid password", st)
      else
        let st1 := { st with
          members := st.members.map (fun (x : Member) =>
            if x.id == m.id then { x with lastLoginAt := some now } else x) }
        (.ok { m with passwordHash := none }, st1)

/-- One entry of the per-type transaction breakdown of the monthly summary. -/
structure TypeBreakdown where
  type : String
  amount : ℚ
  count : Nat
deriving DecidableEq

/-- Result object of `generateMonthlySummaryReport` (`src/db/index.ts` lines
109-133), numeric fields only (the period echo and timing string carry no
content). -/
structure MonthlySummary where
  membersTotal : Nat
  membersActive : Nat
  membersNew : Nat
  savingsTotalBalance : ℚ
  loansDisbursed : ℚ
  loanRepayments : ℚ
  outstandingPortfolio : ℚ
  transactionsByType : List TypeBreakdown
deriving DecidableEq

/-- SQL period filter `periodStart ≤ dateCol AND dateCol ≤ periodEnd` on a
nullable timestamp column (`NULL` never matches). -/
def inPeriod (d : Option Int) (ps pe : Int) : Bool :=
  match d with
  | none => false
  | some t => ps ≤ t && t ≤ pe

/-- `generateMonthlySummaryReport(periodStart, periodEnd)` (`src/db/index.ts`
lines 25-134): the eight aggregates, each SQL `NULL` sum defaulted to `0` by
the route's `|| 0`, and the per-type `GROUP BY` breakdown (groups in first-seen
order). -/
def generateMonthlySummaryReport (st : DB) (ps pe : Int) : MonthlySummary :=
  let periodTx := st.transactions.filter (fun t => inPeriod t.transactionDate ps pe)
  let types := (periodTx.map (fun t => t.transactionType)).dedup
  { membersTotal := st.members.length
    membersActive := (st.members.filter (fun m => m.isActive)).length
    membersNew := (st.members.filter (fun m => inPeriod m.joinedAt ps pe)).length
    savingsTotalBalance :=
      (sqlSum ((st.savings.filter (fun s => s.isActive)).map (fun s => s.balance))).getD 0
    loansDisbursed :=
      (sqlSum ((st.loans.filter (fun l => inPeriod l.disbursedAt ps pe)).map
        (fun l => l.principalAmount))).getD 0
    loanRepayments :=
      (sqlSum ((periodTx.filter (fun t => t.transactionType == "loan_repayment")).map
        (fun t => t.amount))).getD 0
    outstandingPortfolio :=
      (sqlSum ((st.loans.filter (fun l => l.status == "disbursed")).map
        (fun l => l.balance))).getD 0
    transactionsByType := types.map (fun ty =>
      let g := periodTx.filter (fun t => t.transactionType == ty)
      { type := ty
        amount := (sqlSum (g.map (fun t => t.amount))).getD 0
        count := g.length }) }

/-- Row of the `reports` table. -/
structure ReportRow where
  id : Nat
  reportType : String
  periodStart : Int
  periodEnd : Int
  reportData : String
  status : String
  generatedAt : Int
deriving DecidableEq

/-- The object `saveReport` returns (`src/db/index.ts` line 318): a mock
summary, not the inserted row. -/
structure SavedReportSummary where
  id : Nat
  reportType : String
  status : String
deriving DecidableEq

/-- The `reports` table together with its autoincrement counter. -/
structure ReportsDB where
  reports : List ReportRow := []
  nextReportId : Nat := 1
deriving DecidableEq

/-- `saveReport(reportType, periodStart, periodEnd, reportData)`
(`src/db/index.ts` lines 300-319): inserts one `completed` row (the serialized
report text is passed in already serialized) and returns the constant mock
object `{id: 0, reportType, status: 'completed'}`. -/
def saveReport (st : ReportsDB) (reportType : String) (ps pe : Int)
    (dataJSON : String) (now : Int) : SavedReportSummary × ReportsDB :=
  let row : ReportRow :=
    { id := st.nextReportId
      reportType := reportType
      periodStart := ps
      periodEnd := pe
      reportData := dataJSON
      status := "completed"
      generatedAt := now }
  ({ id := 0, reportType := reportType, status := "completed" },
   { reports := st.reports ++ [row], nextReportId := st.nextReportId + 1 })

/-- The `reportId` field of the success response of `POST /api/reports`
(`src/app/api/reports/route.ts` line 97): the `id` of the object `saveReport`
returned. -/
def reportsPOSTReportId (st : ReportsDB) (reportType : String) (ps pe : Int)
    (dataJSON : String) (now : Int) : Nat :=
  (saveReport st reportType ps pe dataJSON now).1.id

end Sacco

namespace Downloads

/-- A uniform row-object (`Record<string, unknown>` restricted to the
`string | null | undefined` values the formatter produces): an ordered list of
key/value pairs, `none` standing for `null`. -/
abbrev Row := List (String × Option String)

/-- JavaScript `Array.prototype.join(sep)`. -/
def joinSep (sep : String) : List String → String
  | [] => ""
  | [x] => x
  | x :: y :: xs => x ++ sep ++ joinSep sep (y :: xs)

/-- JavaScript `String.prototype.includes(c)` for a single character. -/
def containsChar (s : String) (c : Char) : Bool := s.data.any (fun x => x == c)

/-- The `.replace(/"/g, '""')` of `toCSV`: double every double-quote. -/
def escQuotes (s : String) : String :=
  ⟨s.data.foldr (fun c acc => if c == '"' then '"' :: '"' :: acc else c :: acc) []⟩

/-- The `stringValue` step of a `toCSV` cell (`src/lib/downloads.ts` lines
68-70): the outer `Option` is JavaScript `undefined` (key absent from the
row), the inner one `null`; both print as the empty string. -/
def csvStringValue : Option (Option String) → String
  | none => ""
  | some none => ""
  | some (some s) => s

/-- Whether `toCSV` wraps a value in quotes (`src/lib/downloads.ts` line 73):
the value contains a comma, quote or newline. -/
def csvNeedsQuote (s : String) : Bool :=
  containsChar s ',' || containsChar s '"' || containsChar s '\n'

/-- The escaping/quoting step of a `toCSV` cell (`src/lib/downloads.ts` lines
72-75): internal quotes doubled, wrapped in quotes when needed. -/
def csvEscapeValue (s : String) : String :=
  let escaped := escQuotes s
  if csvNeedsQuote s then "\"" ++ escaped ++ "\"" else escaped

/-- One CSV cell of `toCSV` (`src/lib/downloads.ts` lines 66-76). -/
def csvCell (v : Option (Option String)) : String :=
  csvEscapeValue (csvStringValue v)

/-- JavaScript property read `row[key]` on a row-object. -/
def rowLookup (row : Row) (k : String) : Option (Option String) :=
  (row.find? (fun p => p.1 == k)).map (fun p => p.2)

/-- `toCSV(data, headers?)` (`src/lib/downloads.ts` lines 59-81): empty string
for zero rows; otherwise a header row of the keys of the first row (or the
explicit header list) followed by one line per row, all joined by newlines. -/
def toCSV (data : List Row) (headers : Option (List String)) : String :=
  match data with
  | [] => ""
  | first :: _ =>
    let keys := headers.getD (first.map (fun p => p.1))
    let headerLine := joinSep "," keys
    let lines := data.map (fun row =>
      joinSep "," (keys.map (fun k => csvCell (rowLookup row k))))
    joinSep "\n" (headerLine :: lines)

/-- Mode of the reference CSV parser: outside quotes, inside a quoted field, or
just after a quote inside a quoted field (which may be a doubled quote or the
closing quote). -/
inductive CSVMode where
  | normal
  | inQuotes
  | afterQuote
deriving DecidableEq

/-- State of the reference CSV parser: current field (characters in order),
fields of the current record (newest first), finished records (newest first). -/
structure CSVState where
  mode : CSVMode
  field : List Char
  curFields : List (List Char)
  recs : List (List (List Char))
deriving DecidableEq

/-- One step of the reference CSV parser (standard RFC-4180-style quoting:
a field starting with a quote is quoted, `""` inside quotes is a literal
quote, commas and newlines outside quotes delimit fields and records). -/
def csvStep (st : CSVState) (c : Char) : CSVState :=
  match st.mode with
  | .normal =>
    if c == ',' then ⟨.normal, [], st.field :: st.curFields, st.recs⟩
    else if c == '\n' then ⟨.normal, [], [], (st.field :: st.curFields).reverse :: st.recs⟩
    else if c == '"' && st.field == [] then ⟨.inQuotes, st.field, st.curFields, st.recs⟩
    else ⟨.normal, st.field ++ [c], st.curFields, st.recs⟩
  | .inQuotes =>
    if c == '"' then ⟨.afterQuote, st.field, st.curFields, st.recs⟩
    else ⟨.inQuotes, st.field ++ [c], st.curFields, st.recs⟩
  | .afterQuote =>
    if c == '"' then ⟨.inQuotes, st.field ++ ['"'], st.curFields, st.recs⟩
    else if c == ',' then ⟨.normal, [], st.field :: st.curFields, st.recs⟩
    else if c == '\n' then ⟨.normal, [], [], (st.field :: st.curFields).reverse :: st.recs⟩
    else ⟨.normal, st.field ++ [c], st.curFields, st.recs⟩

/-- Reference CSV parser, record level: fold `csvStep` over the text and close
the pending record; the empty text holds no record at all. -/
def parseCSVRecords (s : String) : List (List String) :=
  if s.data = [] then []
  else
    let fin := s.data.foldl csvStep ⟨.normal, [], [], []⟩
    (((fin.field :: fin.curFields).reverse :: fin.recs).reverse).map
      (fun fields => fields.map (fun cs => String.mk cs))

/-- Reference CSV parser, row-object level (the `fromCSV` of the spec's
round-trip property, which has no implementation in the source): the first
record is the header, every later record is zipped against it. -/
def fromCSV (s : String) : List Row :=
  match parseCSVRecords s with
  | [] => []
  | hdr :: rows => rows.map (fun fs => hdr.zip (fs.map (fun v => some v)))

/-- Parser state reached after folding `csvStep` over one serialized cell
starting from a fresh-field normal state: a quoted cell ends just after its
closing quote, an unquoted one stays in normal mode. -/
def postCell (v : String) (r : List (List Char)) (R : List (List (List Char))) : CSVState :=
  if csvNeedsQuote v then ⟨.afterQuote, v.data, r, R⟩ else ⟨.normal, v.data, r, R⟩

/-- Characters of one serialized CSV record: escaped fields joined by commas. -/
def recData (vs : List String) : List Char :=
  (joinSep "," (vs.map csvEscapeValue)).data

/-- Characters of a serialized CSV record list: records joined by newlines. -/
def recLines (ls : List (List String)) : List Char :=
  (joinSep "\n" (ls.map (fun vs => joinSep "," (vs.map csvEscapeValue)))).data

/-- The field-value strings `toCSV` emits for one row under a key list. -/
def rowVals (keys : List String) (row : Row) : List String :=
  keys.map (fun k => csvStringValue (rowLookup row k))

/-- Escaping of `JSON.stringify` for the string values at hand. -/
def jsonEscape (s : String) : String :=
  ⟨s.data.foldr (fun c acc =>
    if c == '"' then '\\' :: '"' :: acc
    else if c == '\\' then '\\' :: '\\' :: acc
    else if c == '\n' then '\\' :: 'n' :: acc
    else c :: acc) []⟩

/-- A JSON value of the formatter's value domain (`string | null`). -/
def jsonValue : Option String → String
  | none => "null"
  | some s => "\"" ++ jsonEscape s ++ "\""

/-- `JSON.stringify(data, null, 2)` on a list of row-objects: the two-space
pretty printing used by the `json` and `excel` branches of `generateDownload`. -/
def jsonStringifyPretty (rows : List Row) : String :=
  match rows with
  | [] => "[]"
  | _ =>
    "[\n" ++
      joinSep ",\n" (rows.map (fun row =>
        match row with
        | [] => "  \x7b\x7d"
        | _ =>
          "  \x7b\n" ++
            joinSep ",\n" (row.map (fun p =>
              "    \"" ++ jsonEscape p.1 ++ "\": " ++ jsonValue p.2)) ++
          "\n  \x7d")) ++
    "\n]"

/-- The fifteen row-producing fetch functions of `src/lib/downloads.ts`. -/
inductive FetchKind where
  | members
  | savings
  | loans
  | transactions
  | penalties
  | creditChecks
  | guarantors
  | reminders
  | auditLogs
  | compliance
  | campaigns
  | partners
  | monthlySummary
  | loanPortfolio
  | memberStatement
deriving DecidableEq

/-- The `switch (options.type)` of `generateDownload` (`src/lib/downloads.ts`
lines 823-871): which fetch function a type string dispatches to, `none` for
the `Unknown download type` default branch. Note the source's identifier for
the loan-portfolio fetcher is the literal `"loan Portfolio"`. -/
def dispatchDownloadType (t : String) : Option FetchKind :=
  if t == "members" then some .members
  else if t == "savings" then some .savings
  else if t == "loans" then some .loans
  else if t == "transactions" then some .transactions
  else if t == "penalties" then some .penalties
  else if t == "credit_checks" then some .creditChecks
  else if t == "guarantors" then some .guarantors
  else if t == "reminders" then some .reminders
  else if t == "audit_logs" then some .auditLogs
  else if t == "compliance" then some .compliance
  else if t == "campaigns" then some .campaigns
  else if t == "partners" then some .partners
  else if t == "monthly_summary" then some .monthlySummary
  else if t == "loan Portfolio" then some .loanPortfolio
  else if t == "member_statement" then some .memberStatement
  else none

/-- The type identifiers `generateDownload` accepts, in switch order. -/
def acceptedDownloadTypes : List String :=
  ["members", "savings", "loans", "transactions", "penalties", "credit_checks",
   "guarantors", "reminders", "audit_logs", "compliance", "campaigns",
   "partners", "monthly_summary", "loan Portfolio", "member_statement"]

/-- Result of `generateDownload`. -/
structure DownloadResult where
  data : String
  filename : String
  contentType : String
deriving DecidableEq

/-- The two `throw` sites of `generateDownload`. -/
inductive DownloadError where
  | unknownType (t : String)
  | unknownFormat (f : String)
deriving DecidableEq

/-- `generateDownload(options)` (`src/lib/downloads.ts` lines 816-900). The
datastore-reading fetchers are abstracted as `fetch : FetchKind → List Row`
(the claims under proof quantify over all row lists); `today` is the
`toISOString().split("T")[0]` date string. -/
def generateDownload (fetch : FetchKind → List Row) (ty fmt today : String) :
    Except DownloadError DownloadResult :=
  match dispatchDownloadType ty with
  | none => .error (.unknownType ty)
  | some k =>
    let data := fetch k
    if fmt == "csv" then
      .ok ⟨toCSV data none, ty ++ "_" ++ today ++ ".csv", "text/csv"⟩
    else if fmt == "json" then
      .ok ⟨jsonStringifyPretty data, ty ++ "_" ++ today ++ ".json", "application/json"⟩
    else if fmt == "excel" then
      .ok ⟨jsonStringifyPretty data, ty ++ "_" ++ today ++ ".xls", "application/vnd.ms-excel"⟩
    else
      .error (.unknownFormat fmt)

end Downloads

namespace Sacco

/-- Example datastore for the credit-check rounding boundary: member 1 holds a
disbursed loan of balance 304000 (deduction 30.4) and savings of 10000. -/
def ceDB1 : DB :=
  { members := [{ id := 1, memberNumber := "M001" }]
    savings := [{ id := 2, memberId := 1, balance := 10000 }]
    loans := [{ id := 3, memberId := 1, status := "disbursed", balance := 304000 }] }

/-- Example datastore for the quick-loan failure order: member 1 holds a
disbursed loan of balance 600000 (so the credit check fails) and savings of
10000 (so a 60000 request also exceeds the 3x limit). -/
def ceDB2 : DB :=
  { members := [{ id := 1, memberNumber := "M001" }]
    savings := [{ id := 2, memberId := 1, balance := 10000 }]
    loans := [{ id := 3, memberId := 1, status := "disbursed", balance := 600000 }] }

/-- The credit-check row `performCreditCheck ceDB2 1 60000 0` inserts: the
existing-loan deduction (50) plus both ratio deductions (20 + 30) drive the
raw score to 0, so the check fails. -/
def ceCC2 : CreditCheckRow :=
  { id := 1, memberId := 1, creditScore := 0, existingLoans := 600000
    latePayments := 0, status := "failed", checkedAt := 0 }

/-- `ceDB2` after the failed credit check of the quick-loan run. -/
def ceDB2F : DB := { ceDB2 with creditChecks := [ceCC2], nextId := 2 }

/-- Example datastore on which `quickLoanApproval` succeeds: member 1 with
savings 10000, no loans, no transactions. -/
def okDB : DB :=
  { members := [{ id := 1, memberNumber := "M001" }]
    savings := [{ id := 2, memberId := 1, balance := 10000 }] }

/-- The credit-check row `performCreditCheck okDB 1 20000 0` inserts. -/
def okCC : CreditCheckRow :=
  { id := 1, memberId := 1, creditScore := 100, existingLoans := 0
    latePayments := 0, status := "passed", checkedAt := 0 }

/-- `okDB` after the credit check of the successful quick-loan run. -/
def okDB1 : DB := { okDB with creditChecks := [okCC], nextId := 2 }

/-- The loan row the successful `quickLoanApproval okDB 1 20000 "biz" 0 "LN1"`
inserts. -/
def okLoan : LoanRow :=
  { id := 2, memberId := 1, loanNumber := "LN1", principalAmount := 20000
    interestRate := 1, interestAmount := 2400, totalAmount := 22400
    paidAmount := 0, balance := 22400, termMonths := 12
    installmentAmount := 5600/3, status := "approved", purpose := some "biz"
    appliedAt := some 0, approvedAt := some 0, disbursedAt := none
    dueDate := some 31536000000 }

/-- `okDB` after the whole successful quick-loan run. -/
def okDB2 : DB :=
  { okDB1 with
    loans := [okLoan]
    auditLogs := [{ id := 3, userId := some 1, action := "loan_approved"
                    entityType := "loan", entityId := some 2 }]
    nextId := 4 }

/-- Example datastore for the double-approval run: loan 10 with a pending
restructuring request 1 whose new term and installment are set. -/
def rdb : DB :=
  { loans := [{ id := 10, memberId := 1, termMonths := 12
                installmentAmount := 1000, balance := 12000 }]
    loanRestructuring := [{ id := 1, loanId := 10, newTerm := some 24
                            newInstallment := some 500 }]
    nextId := 20 }

/-- Example datastore for the login witness: member 7 with no password hash. -/
def loginDB : DB :=
  { members := [{ id := 7, memberNumber := "M007", phone := some "+254700000001"
                  passwordHash := none }] }

/-- Login request with phone identifier and password "a". -/
def loginReqA : LoginRequest := { phone := some "+254700000001", password := some "a" }

/-- Login request with the same phone identifier and password "b". -/
def loginReqB : LoginRequest := { phone := some "+254700000001", password := some "b" }

/-- Example datastore for the zero-state monthly summary: no members, savings
or loans, and one transaction outside the period. -/
def emptyPeriodDB : DB :=
  { transactions := [{ id := 1, transactionType := "deposit", amount := 5
                       transactionDate := some 999 }] }

end Sacco

namespace Downloads

/-- Example row list exercising every quoting case of `toCSV`: a comma, a
quoted quote, an embedded newline and an empty value. -/
def exampleRows : List Row :=
  [[("a", some "x,y"), ("b", some "he said \"hi\"")],
   [("a", some "line1\nline2"), ("b", some "")]]

end Downloads

namespace Sacco

/-- Inversion of a successful `performCreditCheck`: the returned row is the
inserted one and the datastore only gains that row. -/
theorem performCreditCheck_ok_elim (st : DB) (mid : Nat) (amt : ℚ) (now : Int)
    (cc : CreditCheckRow) (st' : DB)
    (h : performCreditCheck st mid amt now = .ok (cc, st')) :
    cc = { id := st.nextId
           memberId := mid
           creditScore := max 0 (min 100 (jsRound (rawCreditScore st mid amt now)))
           existingLoans := (sqlSum (disbursedLoanBalances st mid)).getD 0
           latePayments := lateRepaymentCount st mid now
           status := if rawCreditScore st mid amt now ≥ 50 then "passed" else "failed"
           checkedAt := now } ∧
    st' = { st with creditChecks := st.creditChecks ++ [cc], nextId := st.nextId + 1 } := by
  unfold performCreditCheck at h
  split at h
  · exact absurd h (by simp)
  · simp only [Except.ok.injEq, Prod.mk.injEq] at h
    refine ⟨h.1.symm, ?_⟩
    rw [← h.2, ← h.1]

/-- C1: for every member and loan amount, the persisted credit score lies in
[0, 100]; the persisted status, however, is computed from the raw
(pre-rounding) score, so `status = 'passed'` holds iff the raw score is at
least 50; `'passed'` still implies a persisted score of at least 50, but the
converse direction of the original claim fails on raw scores in [49.5, 50). -/
theorem performCreditCheck_score_clamped_status_raw (st : DB) (mid : Nat)
    (amt : ℚ) (now : Int) (cc : CreditCheckRow) (st' : DB)
    (h : performCreditCheck st mid amt now = .ok (cc, st')) :
    0 ≤ cc.creditScore ∧ cc.creditScore ≤ 100 ∧
    (cc.status = "passed" ↔ 50 ≤ rawCreditScore st mid amt now) ∧
    (cc.status = "passed" → 50 ≤ cc.creditScore) := by
  obtain ⟨hcc, -⟩ := performCreditCheck_ok_elim st mid amt now cc st' h
  have hscore : cc.creditScore
      = max 0 (min 100 (jsRound (rawCreditScore st mid amt now))) := by rw [hcc]
  have hstat : cc.status
      = if rawCreditScore st mid amt now ≥ 50 then "passed" else "failed" := by rw [hcc]
  rw [hscore, hstat]
  by_cases hc : rawCreditScore st mid amt now ≥ 50
  · rw [if_pos hc]
    refine ⟨le_max_left 0 _, max_le (by norm_num) (min_le_left 100 _),
      ⟨fun _ => hc, fun _ => rfl⟩, fun _ => ?_⟩
    have hround : (50 : ℤ) ≤ jsRound (rawCreditScore st mid amt now) := by
      rw [jsRound, Int.le_floor]
      push_cast
      linarith
    exact (le_min (by norm_num) hround).trans (le_max_right 0 _)
  · rw [if_neg hc]
    exact ⟨le_max_left 0 _, max_le (by norm_num) (min_le_left 100 _),
      ⟨fun hs => absurd hs (by decide), fun hraw => absurd hraw hc⟩,
      fun hs => absurd hs (by decide)⟩

/-- C1 witness: instantiating the clamping/status theorem on `okDB` at loan
amount 20000 (a passing credit check with raw score 100). -/
theorem performCreditCheck_score_clamped_status_raw_witness :
    0 ≤ okCC.creditScore ∧ okCC.creditScore ≤ 100 ∧
    (okCC.status = "passed" ↔ 50 ≤ rawCreditScore okDB 1 20000 0) := by
  have h := performCreditCheck_score_clamped_status_raw okDB 1 20000 0 okCC okDB1
    (by norm_num [performCreditCheck, rawCreditScore, disbursedLoanBalances,
      activeSavingsBalances, lateRepaymentCount, sqlSum, truthyNum, jsRound,
      sqlLtDate, okDB, okCC, okDB1])
  exact ⟨h.1, h.2.1, h.2.2.1⟩

/-- C1 counterexample: on `ceDB1` with loan amount 40000 the raw score is
49.6, so the persisted score rounds up to 50 while the persisted status is
`'failed'` — refuting “status is `'passed'` iff the persisted score is
at least 50”. -/
theorem performCreditCheck_boundary_counterexample :
    (performCreditCheck ceDB1 1 40000 0).toOption.map
        (fun p => (p.1.creditScore, p.1.status)) = some (50, "failed") ∧
    ¬(("failed" = "passed") ↔ ((50 : ℤ) ≥ 50)) := by
  constructor
  · norm_num [performCreditCheck, rawCreditScore, disbursedLoanBalances,
      activeSavingsBalances, lateRepaymentCount, sqlSum, truthyNum, jsRound,
      sqlLtDate, ceDB1, Except.toOption]
  · decide

end Sacco

namespace Sacco

/-- C2 (amended): `quickLoanApproval` runs the credit check first, so the
“exceeds limit” failure is only guaranteed when that credit check passed;
a non-passed credit check always fails with the “credit check failed”
condition (whatever the amount); and no failing call inserts a loan row. -/
theorem quickLoanApproval_failure_cases (st : DB) (mid : Nat) (amount : ℚ)
    (purpose : String) (now : Int) (ln : String) (cc : CreditCheckRow) (st1 : DB)
    (hcc : performCreditCheck st mid amount now = .ok (cc, st1)) :
    (cc.status = "passed" → amount > firstActiveSavingsBalance st1 mid * 3 →
      quickLoanApproval st mid amount purpose now ln
        = (.error (.exceedsLimit (firstActiveSavingsBalance st1 mid * 3)), st1)) ∧
    (cc.status ≠ "passed" →
      quickLoanApproval st mid amount purpose now ln
        = (.error .creditCheckFailed, st1)) ∧
    (∀ e st2, quickLoanApproval st mid amount purpose now ln = (.error e, st2) →
      st2.loans = st.loans) := by
  have helim := performCreditCheck_ok_elim st mid amount now cc st1 hcc
  have hloans : st1.loans = st.loans := by rw [helim.2]
  refine ⟨?_, ?_, ?_⟩
  · intro hp hgt
    have hb : (cc.status != "passed") = false := by simp [hp]
    simp only [quickLoanApproval, hcc, hb, Bool.false_eq_true, if_false, if_pos hgt]
  · intro hp
    have hb : (cc.status != "passed") = true := by simp [bne_iff_ne, hp]
    simp only [quickLoanApproval, hcc, hb, if_true]
  · intro e st2 hq
    simp only [quickLoanApproval, hcc] at hq
    split at hq
    · cases hq
      exact hloans
    · split at hq
      · cases hq
        exact hloans
      · exact absurd (congrArg (fun p => p.1) hq) (by simp)

/-- C2 witness: on `ceDB2` member 1's credit check fails, and instantiating
the theorem shows the call fails with the credit-check condition and inserts
no loan row. -/
theorem quickLoanApproval_failure_cases_witness :
    quickLoanApproval ceDB2 1 60000 "biz" 0 "LN1"
        = (.error .creditCheckFailed, ceDB2F) ∧
    (quickLoanApproval ceDB2 1 60000 "biz" 0 "LN1").2.loans = ceDB2.loans := by
  have h := quickLoanApproval_failure_cases ceDB2 1 60000 "biz" 0 "LN1" ceCC2 ceDB2F
    (by norm_num [performCreditCheck, rawCreditScore, disbursedLoanBalances,
      activeSavingsBalances, lateRepaymentCount, sqlSum, truthyNum, jsRound,
      sqlLtDate, ceDB2, ceCC2, ceDB2F])
  have h2 := h.2.1 (by decide)
  exact ⟨h2, by rw [h2]; exact h.2.2 .creditCheckFailed ceDB2F h2⟩

/-- C2 counterexample: on `ceDB2` the requested 60000 exceeds three times the
active savings balance (30000), yet the call fails with the credit-check
condition, not the exceeds-limit one — refuting “amount > 3S always fails
with an exceeds-limit condition”. -/
theorem quickLoanApproval_order_counterexample :
    ((60000 : ℚ) > firstActiveSavingsBalance ceDB2 1 * 3) ∧
    (quickLoanApproval ceDB2 1 60000 "biz" 0 "LN1").1
        = .error .creditCheckFailed ∧
    (quickLoanApproval ceDB2 1 60000 "biz" 0 "LN1").1
        ≠ .error (.exceedsLimit (firstActiveSavingsBalance ceDB2 1 * 3)) := by
  refine ⟨by norm_num [firstActiveSavingsBalance, ceDB2], ?_, ?_⟩ <;>
    · norm_num [quickLoanApproval, performCreditCheck, rawCreditScore,
        disbursedLoanBalances, activeSavingsBalances, lateRepaymentCount, sqlSum,
        truthyNum, jsRound, sqlLtDate, ceDB2, firstActiveSavingsBalance]
      simp

/-- C3: every successful `quickLoanApproval` inserts a loan whose rate is 1.0
when the persisted credit score is at least 80 and 1.5 otherwise, with simple
12-month amortization, status `approved`, zero paid amount, due date one year
out, and `balance = totalAmount - paidAmount`. -/
theorem quickLoanApproval_success_fields (st : DB) (mid : Nat) (amount : ℚ)
    (purpose : String) (now : Int) (ln : String) (cc : CreditCheckRow) (st1 : DB)
    (loan : LoanRow) (st2 : DB)
    (hcc : performCreditCheck st mid amount now = .ok (cc, st1))
    (hok : quickLoanApproval st mid amount purpose now ln = (.ok loan, st2)) :
    loan.interestRate = (if cc.creditScore ≥ 80 then (1 : ℚ) else 3/2) ∧
    loan.interestAmount = amount * (loan.interestRate / 100) * 12 ∧
    loan.totalAmount = amount + loan.interestAmount ∧
    loan.installmentAmount = loan.totalAmount / 12 ∧
    loan.termMonths = 12 ∧
    loan.status = "approved" ∧
    loan.paidAmount = 0 ∧
    loan.dueDate = some (now + 365 * 24 * 60 * 60 * 1000) ∧
    loan.balance = loan.totalAmount - loan.paidAmount := by
  simp only [quickLoanApproval, hcc] at hok
  split at hok
  · exact absurd (congrArg (fun p => p.1) hok) (by simp)
  · split at hok
    · exact absurd (congrArg (fun p => p.1) hok) (by simp)
    · rw [Prod.mk.injEq] at hok
      obtain ⟨h1, -⟩ := hok
      rw [Except.ok.injEq] at h1
      subst h1
      refine ⟨rfl, rfl, rfl, rfl, rfl, rfl, rfl, rfl, ?_⟩
      simp

/-- C3 witness: the successful run on `okDB` (score 100, rate 1.0, amount
20000) instantiates every field equation. -/
theorem quickLoanApproval_success_fields_witness :
    okLoan.interestRate = 1 ∧ okLoan.termMonths = 12 ∧
    okLoan.status = "approved" ∧
    okLoan.installmentAmount = okLoan.totalAmount / 12 ∧
    okLoan.balance = okLoan.totalAmount - okLoan.paidAmount := by
  have h := quickLoanApproval_success_fields okDB 1 20000 "biz" 0 "LN1" okCC okDB1
    okLoan okDB2
    (by norm_num [performCreditCheck, rawCreditScore, disbursedLoanBalances,
      activeSavingsBalances, lateRepaymentCount, sqlSum, truthyNum, jsRound,
      sqlLtDate, okDB, okCC, okDB1])
    (by norm_num [quickLoanApproval, performCreditCheck, rawCreditScore,
      disbursedLoanBalances, activeSavingsBalances, lateRepaymentCount, sqlSum,
      truthyNum, jsRound, sqlLtDate, okDB, okCC, okDB1, okLoan, okDB2,
      firstActiveSavingsBalance])
  refine ⟨?_, h.2.2.2.2.1, h.2.2.2.2.2.1, h.2.2.2.1, h.2.2.2.2.2.2.2.2⟩
  rw [h.1]
  norm_num [okCC]

end Sacco

namespace Sacco

/-- C4: evaluating `approveLoanRestructuring` at the failing input. The first
call on pending restructuring 1 succeeds and marks it `approved`; the second
call on the same id then also succeeds (the code never checks the row's
status), silently re-applying the restructuring instead of failing with a
not-found/invalid-state error as the specification requires. -/
theorem approveLoanRestructuring_second_call_succeeds :
    (approveLoanRestructuring rdb 1 "mgr" 0).1 = .ok () ∧
    ((approveLoanRestructuring rdb 1 "mgr" 0).2.loanRestructuring.find?
        (fun r => r.id == 1)).map (fun r => r.status) = some "approved" ∧
    (approveLoanRestructuring (approveLoanRestructuring rdb 1 "mgr" 0).2 1 "mgr2" 5).1
      = .ok () := by
  refine ⟨?_, ?_, ?_⟩ <;>
    norm_num [approveLoanRestructuring, rdb, truthyInt, truthyNum]

/-- C10: `saveReport` always returns the constant mock object
`{id: 0, reportType, status: 'completed'}`, so the `reportId` of every
successful `POST /api/reports` response is 0 and differs from the id of the
row actually inserted whenever that id is nonzero. -/
theorem saveReport_constant_mock (st : ReportsDB) (rt : String) (ps pe : Int)
    (d : String) (now : Int) :
    (saveReport st rt ps pe d now).1
        = { id := 0, reportType := rt, status := "completed" } ∧
    reportsPOSTReportId st rt ps pe d now = 0 ∧
    (saveReport st rt ps pe d now).2.reports
        = st.reports ++
            [{ id := st.nextReportId, reportType := rt, periodStart := ps,
               periodEnd := pe, reportData := d, status := "completed",
               generatedAt := now }] ∧
    (st.nextReportId ≠ 0 → (saveReport st rt ps pe d now).1.id ≠ st.nextReportId) := by
  refine ⟨rfl, rfl, rfl, fun h he => h ?_⟩
  exact he.symm

/-- C10 witness: with the autoincrement counter at 5, the response id is 0 and
does not identify the inserted row. -/
theorem saveReport_constant_mock_witness :
    reportsPOSTReportId { reports := [], nextReportId := 5 } "monthly_summary" 0 0 "d" 0 = 0 ∧
    (saveReport { reports := [], nextReportId := 5 } "monthly_summary" 0 0 "d" 0).1.id ≠ 5 := by
  have h := saveReport_constant_mock { reports := [], nextReportId := 5 }
    "monthly_summary" 0 0 "d" 0
  exact ⟨h.2.1, h.2.2.2 (by decide)⟩

/-- C6: when no member, savings or loan rows exist and no transaction falls in
the period, every numeric field of the monthly summary is 0 (the embedding's
result type is total, so no field can be null/undefined) and the per-type
breakdown is empty. -/
theorem generateMonthlySummaryReport_zero_state (st : DB) (ps pe : Int)
    (hm : st.members = []) (hs : st.savings = []) (hl : st.loans = [])
    (ht : ∀ t ∈ st.transactions, inPeriod t.transactionDate ps pe = false) :
    generateMonthlySummaryReport st ps pe =
      { membersTotal := 0, membersActive := 0, membersNew := 0
        savingsTotalBalance := 0, loansDisbursed := 0, loanRepayments := 0
        outstandingPortfolio := 0, transactionsByType := [] } := by
  have hpt : st.transactions.filter (fun t => inPeriod t.transactionDate ps pe) = [] := by
    rw [List.filter_eq_nil_iff]
    intro t htmem
    simp [ht t htmem]
  simp [generateMonthlySummaryReport, hm, hs, hl, hpt, sqlSum]

/-- C6 witness: a datastore holding only one out-of-period transaction yields
the all-zero summary for the period [0, 10]. -/
theorem generateMonthlySummaryReport_zero_state_witness :
    generateMonthlySummaryReport emptyPeriodDB 0 10 =
      { membersTotal := 0, membersActive := 0, membersNew := 0
        savingsTotalBalance := 0, loansDisbursed := 0, loanRepayments := 0
        outstandingPortfolio := 0, transactionsByType := [] } :=
  generateMonthlySummaryReport_zero_state emptyPeriodDB 0 10 rfl rfl rfl (by decide)

/-- C5: for a stored member whose `passwordHash` is null, login succeeds with
the member record for any supplied (non-empty) password, and the outcome is
identical for any two supplied passwords — the password does not influence
the result. -/
theorem loginPOST_ignores_password_when_hash_null (st : DB)
    (req1 req2 : LoginRequest) (m : Member) (now : Int)
    (he : req2.email = req1.email) (hp : req2.phone = req1.phone)
    (hn : req2.memberNumber = req1.memberNumber)
    (hid : (truthyStr req1.email || truthyStr req1.phone ||
      truthyStr req1.memberNumber) = true)
    (hp1 : truthyStr req1.password = true) (hp2 : truthyStr req2.password = true)
    (hm : loginLookup st req1 = some m) (hnull : m.passwordHash = none) :
    (loginPOST st req1 now).1 = .ok { m with passwordHash := none } ∧
    loginPOST st req1 now = loginPOST st req2 now := by
  have hid2 : (truthyStr req2.email || truthyStr req2.phone ||
      truthyStr req2.memberNumber) = true := by
    rw [he, hp, hn]
    exact hid
  have hm2 : loginLookup st req2 = some m := by
    rw [loginLookup, he, hp, hn, ← loginLookup, hm]
  have hhash : (truthyStr m.passwordHash && m.passwordHash != req1.password) = false := by
    rw [hnull]
    rfl
  have hhash2 : (truthyStr m.passwordHash && m.passwordHash != req2.password) = false := by
    rw [hnull]
    rfl
  constructor
  · simp only [loginPOST, hid, hp1, hm, hhash, Bool.not_true, Bool.false_eq_true,
      if_false]
  · simp only [loginPOST, hid, hid2, hp1, hp2, hm, hm2, hhash, hhash2,
      Bool.not_true, Bool.false_eq_true, if_false]

/-- C5 witness: member 7 of `loginDB` has no password hash; logging in with
password "a" and with password "b" both return the member. -/
theorem loginPOST_ignores_password_witness :
    (loginPOST loginDB loginReqA 0).1
        = .ok { id := 7, memberNumber := "M007", phone := some "+254700000001"
                passwordHash := none } ∧
    loginPOST loginDB loginReqA 0 = loginPOST loginDB loginReqB 0 :=
  loginPOST_ignores_password_when_hash_null loginDB loginReqA loginReqB
    { id := 7, memberNumber := "M007", phone := some "+254700000001" } 0
    rfl rfl rfl (by decide) (by decide) (by decide) (by decide) rfl

end Sacco

namespace Downloads

set_option maxHeartbeats 2000000 in
/-- C7 (amended): the download-type switch accepts exactly the fifteen
identifiers of `acceptedDownloadTypes` — which contains the source literal
`"loan Portfolio"` where the spec lists `loan_portfolio` — maps each to its
fetch function, and `generateDownload` fails with the unknown-type error on
every other string. -/
theorem generateDownload_accepted_types :
    (∀ t : String, (dispatchDownloadType t).isSome ↔ t ∈ acceptedDownloadTypes) ∧
    (dispatchDownloadType "members" = some .members ∧
     dispatchDownloadType "savings" = some .savings ∧
     dispatchDownloadType "loans" = some .loans ∧
     dispatchDownloadType "transactions" = some .transactions ∧
     dispatchDownloadType "penalties" = some .penalties ∧
     dispatchDownloadType "credit_checks" = some .creditChecks ∧
     dispatchDownloadType "guarantors" = some .guarantors ∧
     dispatchDownloadType "reminders" = some .reminders ∧
     dispatchDownloadType "audit_logs" = some .auditLogs ∧
     dispatchDownloadType "compliance" = some .compliance ∧
     dispatchDownloadType "campaigns" = some .campaigns ∧
     dispatchDownloadType "partners" = some .partners ∧
     dispatchDownloadType "monthly_summary" = some .monthlySummary ∧
     dispatchDownloadType "loan Portfolio" = some .loanPortfolio ∧
     dispatchDownloadType "member_statement" = some .memberStatement) ∧
    (∀ (fetch : FetchKind → List Row) (t fmt today : String),
      t ∉ acceptedDownloadTypes →
      generateDownload fetch t fmt today = .error (.unknownType t)) := by
  have hsome_of_mem : ∀ t ∈ acceptedDownloadTypes, (dispatchDownloadType t).isSome := by
    decide
  have hnone_of_not_mem : ∀ t : String, t ∉ acceptedDownloadTypes →
      dispatchDownloadType t = none := by
    intro t hmem
    simp only [acceptedDownloadTypes, List.mem_cons, List.not_mem_nil, or_false,
      not_or] at hmem
    obtain ⟨n1, n2, n3, n4, n5, n6, n7, n8, n9, n10, n11, n12, n13, n14, n15⟩ := hmem
    simp only [dispatchDownloadType, beq_iff_eq, if_neg n1, if_neg n2, if_neg n3,
      if_neg n4, if_neg n5, if_neg n6, if_neg n7, if_neg n8, if_neg n9, if_neg n10,
      if_neg n11, if_neg n12, if_neg n13, if_neg n14, if_neg n15]
  have hmem_of_some : ∀ t : String,
      (dispatchDownloadType t).isSome → t ∈ acceptedDownloadTypes := by
    intro t hsome
    by_contra hmem
    rw [hnone_of_not_mem t hmem] at hsome
    simp at hsome
  have hiff : ∀ t : String, (dispatchDownloadType t).isSome ↔ t ∈ acceptedDownloadTypes :=
    fun t => ⟨hmem_of_some t, hsome_of_mem t⟩
  refine ⟨hiff, by decide, ?_⟩
  intro fetch t fmt today hmem
  simp only [generateDownload, hnone_of_not_mem t hmem]

/-- C7 witness: the string "excel_export" is not an accepted type and yields
the unknown-type error. -/
theorem generateDownload_accepted_types_witness :
    generateDownload (fun _ => []) "excel_export" "csv" "2026-01-01"
      = .error (.unknownType "excel_export") :=
  generateDownload_accepted_types.2.2 (fun _ => []) "excel_export" "csv" "2026-01-01"
    (by decide)

/-- C7 counterexample: the spec's identifier `loan_portfolio` is rejected with
the unknown-type error (the switch instead accepts the literal
`"loan Portfolio"`), refuting the claimed list of accepted identifiers. -/
theorem generateDownload_loan_portfolio_unknown :
    generateDownload (fun _ => []) "loan_portfolio" "csv" "2026-01-01"
      = .error (.unknownType "loan_portfolio") ∧
    dispatchDownloadType "loan Portfolio" = some .loanPortfolio := by
  exact ⟨rfl, by decide⟩

/-- C8: for every accepted type and fetched row list, the `csv` format yields
`{type}_{date}.csv` with `text/csv`, `json` yields `.json` with
`application/json`, `excel` yields `.xls` with `application/vnd.ms-excel`,
and the `excel` data text equals the `json` data text (both are the pretty
printed JSON of the rows). -/
theorem generateDownload_format_outputs (fetch : FetchKind → List Row)
    (ty today : String) (k : FetchKind) (hk : dispatchDownloadType ty = some k) :
    generateDownload fetch ty "csv" today
        = .ok ⟨toCSV (fetch k) none, ty ++ "_" ++ today ++ ".csv", "text/csv"⟩ ∧
    generateDownload fetch ty "json" today
        = .ok ⟨jsonStringifyPretty (fetch k), ty ++ "_" ++ today ++ ".json",
               "application/json"⟩ ∧
    generateDownload fetch ty "excel" today
        = .ok ⟨jsonStringifyPretty (fetch k), ty ++ "_" ++ today ++ ".xls",
               "application/vnd.ms-excel"⟩ ∧
    (generateDownload fetch ty "excel" today).toOption.map (fun r => r.data)
        = (generateDownload fetch ty "json" today).toOption.map (fun r => r.data) := by
  have hcsv : generateDownload fetch ty "csv" today
      = .ok ⟨toCSV (fetch k) none, ty ++ "_" ++ today ++ ".csv", "text/csv"⟩ := by
    simp [generateDownload, hk]
  have hjson : generateDownload fetch ty "json" today
      = .ok ⟨jsonStringifyPretty (fetch k), ty ++ "_" ++ today ++ ".json",
             "application/json"⟩ := by
    simp [generateDownload, hk]
  have hexcel : generateDownload fetch ty "excel" today
      = .ok ⟨jsonStringifyPretty (fetch k), ty ++ "_" ++ today ++ ".xls",
             "application/vnd.ms-excel"⟩ := by
    simp [generateDownload, hk]
  refine ⟨hcsv, hjson, hexcel, ?_⟩
  rw [hjson, hexcel]
  rfl

/-- C8 witness: the three formats of the `members` download at a concrete
date, with the excel data text equal to the json one. -/
theorem generateDownload_format_outputs_witness :
    generateDownload (fun _ => exampleRows) "members" "excel" "2026-10-12"
        = .ok ⟨jsonStringifyPretty exampleRows, "members_2026-10-12.xls",
               "application/vnd.ms-excel"⟩ ∧
    (generateDownload (fun _ => exampleRows) "members" "excel" "2026-10-12").toOption.map
        (fun r => r.data)
      = (generateDownload (fun _ => exampleRows) "members" "json" "2026-10-12").toOption.map
        (fun r => r.data) := by
  have h := generateDownload_format_outputs (fun _ => exampleRows) "members"
    "2026-10-12" .members (by decide)
  exact ⟨h.2.2.1, h.2.2.2⟩

end Downloads

namespace Downloads

theorem string_data_append (s t : String) : (s ++ t).data = s.data ++ t.data := rfl

theorem string_mk_data (s : String) : String.mk s.data = s := rfl

theorem csvStep_normal_comma (f : List Char) (r : List (List Char))
    (R : List (List (List Char))) :
    csvStep ⟨.normal, f, r, R⟩ ',' = ⟨.normal, [], f :: r, R⟩ := rfl

theorem csvStep_normal_newline (f : List Char) (r : List (List Char))
    (R : List (List (List Char))) :
    csvStep ⟨.normal, f, r, R⟩ '\n' = ⟨.normal, [], [], (f :: r).reverse :: R⟩ := rfl

theorem csvStep_normal_quote_empty (r : List (List Char))
    (R : List (List (List Char))) :
    csvStep ⟨.normal, [], r, R⟩ '"' = ⟨.inQuotes, [], r, R⟩ := rfl

theorem csvStep_normal_other (c : Char) (f : List Char) (r : List (List Char))
    (R : List (List (List Char))) (h1 : c ≠ ',') (h2 : c ≠ '\n') (h3 : c ≠ '"') :
    csvStep ⟨.normal, f, r, R⟩ c = ⟨.normal, f ++ [c], r, R⟩ := by
  simp [csvStep, h1, h2, h3]

theorem csvStep_inQuotes_quote (f : List Char) (r : List (List Char))
    (R : List (List (List Char))) :
    csvStep ⟨.inQuotes, f, r, R⟩ '"' = ⟨.afterQuote, f, r, R⟩ := rfl

theorem csvStep_inQuotes_other (c : Char) (f : List Char) (r : List (List Char))
    (R : List (List (List Char))) (h : c ≠ '"') :
    csvStep ⟨.inQuotes, f, r, R⟩ c = ⟨.inQuotes, f ++ [c], r, R⟩ := by
  simp [csvStep, h]

theorem csvStep_afterQuote_quote (f : List Char) (r : List (List Char))
    (R : List (List (List Char))) :
    csvStep ⟨.afterQuote, f, r, R⟩ '"' = ⟨.inQuotes, f ++ ['"'], r, R⟩ := rfl

theorem csvStep_afterQuote_comma (f : List Char) (r : List (List Char))
    (R : List (List (List Char))) :
    csvStep ⟨.afterQuote, f, r, R⟩ ',' = ⟨.normal, [], f :: r, R⟩ := rfl

theorem csvStep_afterQuote_newline (f : List Char) (r : List (List Char))
    (R : List (List (List Char))) :
    csvStep ⟨.afterQuote, f, r, R⟩ '\n' = ⟨.normal, [], [], (f :: r).reverse :: R⟩ := rfl

theorem escQuotes_data_cons (c : Char) (cs : List Char) :
    (escQuotes ⟨c :: cs⟩).data
      = if c = '"' then '"' :: '"' :: (escQuotes ⟨cs⟩).data
        else c :: (escQuotes ⟨cs⟩).data := by
  by_cases hc : c = '"' <;> simp [escQuotes, hc]

theorem foldl_csvStep_escQuotes (w : List Char) :
    ∀ (acc : List Char) (r : List (List Char)) (R : List (List (List Char))),
    List.foldl csvStep ⟨.inQuotes, acc, r, R⟩ (escQuotes ⟨w⟩).data
      = ⟨.inQuotes, acc ++ w, r, R⟩ := by
  induction w with
  | nil =>
    intro acc r R
    simp [escQuotes]
  | cons c cs ih =>
    intro acc r R
    rw [escQuotes_data_cons]
    by_cases hc : c = '"'
    · subst hc
      rw [if_pos rfl]
      simp only [List.foldl_cons, csvStep_inQuotes_quote, csvStep_afterQuote_quote]
      rw [ih]
      simp
    · rw [if_neg hc]
      simp only [List.foldl_cons, csvStep_inQuotes_other c acc r R hc]
      rw [ih]
      simp

theorem escQuotes_eq_self (s : String) (h : containsChar s '"' = false) :
    escQuotes s = s := by
  obtain ⟨w⟩ := s
  simp only [containsChar, List.any_eq_false] at h
  induction w with
  | nil => rfl
  | cons c cs ih =>
    have hc : ¬(c = '"') := by
      intro hc
      exact absurd (by rw [hc]; rfl) (h c (List.mem_cons_self c cs))
    have htail := ih (fun x hx => h x (List.mem_cons_of_mem c hx))
    have hd : (escQuotes ⟨c :: cs⟩).data = c :: cs := by
      rw [escQuotes_data_cons, if_neg hc, congrArg String.data htail]
    rw [← string_mk_data (escQuotes ⟨c :: cs⟩), hd]

theorem foldl_csvStep_noSpecial (w : List Char)
    (h : ∀ c ∈ w, c ≠ ',' ∧ c ≠ '"' ∧ c ≠ '\n') :
    ∀ (acc : List Char) (r : List (List Char)) (R : List (List (List Char))),
    List.foldl csvStep ⟨.normal, acc, r, R⟩ w = ⟨.normal, acc ++ w, r, R⟩ := by
  induction w with
  | nil =>
    intro acc r R
    simp
  | cons c cs ih =>
    intro acc r R
    obtain ⟨h1, h3, h2⟩ := h c (List.mem_cons_self c cs)
    simp only [List.foldl_cons, csvStep_normal_other c acc r R h1 h2 h3]
    rw [ih (fun x hx => h x (List.mem_cons_of_mem c hx))]
    simp

theorem csvNeedsQuote_false_elim (v : String) (h : csvNeedsQuote v = false) :
    ∀ c ∈ v.data, c ≠ ',' ∧ c ≠ '"' ∧ c ≠ '\n' := by
  simp only [csvNeedsQuote, Bool.or_eq_false_iff, containsChar,
    List.any_eq_false, beq_iff_eq] at h
  intro c hc
  exact ⟨h.1.1 c hc, h.1.2 c hc, h.2 c hc⟩

theorem foldl_csvStep_cell (v : String) (r : List (List Char))
    (R : List (List (List Char))) (rest : List Char) :
    List.foldl csvStep ⟨.normal, [], r, R⟩ ((csvEscapeValue v).data ++ rest)
      = List.foldl csvStep (postCell v r R) rest := by
  rw [List.foldl_append]
  congr 1
  by_cases hq : csvNeedsQuote v
  · have hval : csvEscapeValue v = "\"" ++ escQuotes v ++ "\"" := by
      simp [csvEscapeValue, hq]
    have hdata : (csvEscapeValue v).data
        = '"' :: ((escQuotes v).data ++ ['"']) := by
      rw [hval, string_data_append, string_data_append]
      rfl
    rw [hdata]
    simp only [List.foldl_cons, csvStep_normal_quote_empty]
    rw [List.foldl_append]
    have hesc : List.foldl csvStep ⟨.inQuotes, [], r, R⟩ (escQuotes v).data
        = ⟨.inQuotes, v.data, r, R⟩ := by
      have := foldl_csvStep_escQuotes v.data [] r R
      rw [string_mk_data] at this
      simpa using this
    rw [hesc]
    simp only [List.foldl_cons, List.foldl_nil, csvStep_inQuotes_quote]
    rw [postCell, if_pos hq]
  · have hq' : csvNeedsQuote v = false := by
      rw [Bool.not_eq_true] at hq
      exact hq
    have hnq : containsChar v '"' = false := by
      simp only [csvNeedsQuote, Bool.or_eq_false_iff] at hq'
      exact hq'.1.2
    have hval : csvEscapeValue v = v := by
      rw [csvEscapeValue]
      simp only [hq', Bool.false_eq_true, if_false]
      exact escQuotes_eq_self v hnq
    rw [hval, foldl_csvStep_noSpecial v.data (csvNeedsQuote_false_elim v hq')]
    rw [postCell, if_neg hq]
    simp

theorem foldl_postCell_comma (v : String) (r : List (List Char))
    (R : List (List (List Char))) (rest : List Char) :
    List.foldl csvStep (postCell v r R) (',' :: rest)
      = List.foldl csvStep ⟨.normal, [], v.data :: r, R⟩ rest := by
  rw [postCell]
  split
  · simp only [List.foldl_cons, csvStep_afterQuote_comma]
  · simp only [List.foldl_cons, csvStep_normal_comma]

theorem foldl_postCell_newline (v : String) (r : List (List Char))
    (R : List (List (List Char))) (rest : List Char) :
    List.foldl csvStep (postCell v r R) ('\n' :: rest)
      = List.foldl csvStep ⟨.normal, [], [], (v.data :: r).reverse :: R⟩ rest := by
  rw [postCell]
  split
  · simp only [List.foldl_cons, csvStep_afterQuote_newline]
  · simp only [List.foldl_cons, csvStep_normal_newline]

theorem postCell_fields (v : String) (r : List (List Char))
    (R : List (List (List Char))) :
    (postCell v r R).field = v.data ∧ (postCell v r R).curFields = r ∧
      (postCell v r R).recs = R := by
  rw [postCell]
  split
  · exact ⟨rfl, rfl, rfl⟩
  · exact ⟨rfl, rfl, rfl⟩

theorem recData_singleton (v : String) : recData [v] = (csvEscapeValue v).data := rfl

theorem recData_cons (x : String) (ys : List String) (h : ys ≠ []) :
    recData (x :: ys) = (csvEscapeValue x).data ++ ',' :: recData ys := by
  match ys, h with
  | y :: ys', _ =>
    show (joinSep "," (csvEscapeValue x :: csvEscapeValue y :: ys'.map csvEscapeValue)).data = _
    rw [joinSep]
    rw [string_data_append, string_data_append]
    simp [recData, List.append_assoc]

theorem foldl_csvStep_recMid (vs : List String) :
    ∀ (v : String) (r : List (List Char)) (R : List (List (List Char)))
      (rest : List Char),
    List.foldl csvStep ⟨.normal, [], r, R⟩ (recData (vs ++ [v]) ++ rest)
      = List.foldl csvStep (postCell v ((vs.map String.data).reverse ++ r) R) rest := by
  induction vs with
  | nil =>
    intro v r R rest
    rw [List.nil_append, recData_singleton, foldl_csvStep_cell]
    simp
  | cons x vs' ih =>
    intro v r R rest
    rw [List.cons_append, recData_cons x (vs' ++ [v]) (by simp)]
    rw [List.append_assoc, List.cons_append]
    rw [foldl_csvStep_cell, foldl_postCell_comma]
    rw [ih v (x.data :: r) R rest]
    simp [List.append_assoc]

theorem foldl_csvStep_recNewline (vs : List String) (hne : vs ≠ [])
    (R : List (List (List Char))) (rest : List Char) :
    List.foldl csvStep ⟨.normal, [], [], R⟩ (recData vs ++ '\n' :: rest)
      = List.foldl csvStep ⟨.normal, [], [], (vs.map String.data) :: R⟩ rest := by
  induction vs using List.reverseRecOn with
  | nil => exact absurd rfl hne
  | append_singleton vs' v _ =>
    rw [foldl_csvStep_recMid, foldl_postCell_newline]
    congr 2
    simp

theorem foldl_csvStep_recEOF (vs : List String) (hne : vs ≠ [])
    (R : List (List (List Char))) :
    ((List.foldl csvStep ⟨.normal, [], [], R⟩ (recData vs)).field ::
      (List.foldl csvStep ⟨.normal, [], [], R⟩ (recData vs)).curFields).reverse
        = vs.map String.data ∧
    (List.foldl csvStep ⟨.normal, [], [], R⟩ (recData vs)).recs = R := by
  induction vs using List.reverseRecOn with
  | nil => exact absurd rfl hne
  | append_singleton vs' v _ =>
    have h := foldl_csvStep_recMid vs' v [] R []
    simp only [List.append_nil, List.foldl_nil] at h
    rw [h]
    obtain ⟨hf, hc, hr⟩ := postCell_fields v ((vs'.map String.data).reverse) R
    rw [hf, hc, hr]
    refine ⟨?_, rfl⟩
    simp

theorem recLines_singleton (l : List String) : recLines [l] = recData l := rfl

theorem recLines_cons (l l2 : List String) (ls : List (List String)) :
    recLines (l :: l2 :: ls) = recData l ++ '\n' :: recLines (l2 :: ls) := by
  show (joinSep "\n" (_ :: _ :: _)).data = _
  rw [joinSep, string_data_append, string_data_append]
  simp [recData, recLines, List.append_assoc]

theorem foldl_csvStep_recLines (ls : List (List String)) :
    ∀ (R : List (List (List Char))), ls ≠ [] → (∀ l ∈ ls, l ≠ []) →
    (((List.foldl csvStep ⟨.normal, [], [], R⟩ (recLines ls)).field ::
      (List.foldl csvStep ⟨.normal, [], [], R⟩ (recLines ls)).curFields).reverse ::
      (List.foldl csvStep ⟨.normal, [], [], R⟩ (recLines ls)).recs).reverse
        = R.reverse ++ ls.map (fun l => l.map String.data) := by
  induction ls with
  | nil => intro R h _; exact absurd rfl h
  | cons l rest ih =>
    intro R _ hne
    match rest with
    | [] =>
      rw [recLines_singleton]
      obtain ⟨h1, h2⟩ := foldl_csvStep_recEOF l (hne l (List.mem_cons_self l [])) R
      rw [h1, h2]
      simp
    | l2 :: ls' =>
      rw [recLines_cons]
      rw [foldl_csvStep_recNewline l (hne l (List.mem_cons_self l _)) R (recLines (l2 :: ls'))]
      rw [ih ((l.map String.data) :: R) (by simp)
        (fun x hx => hne x (List.mem_cons_of_mem l hx))]
      simp

theorem parseCSVRecords_recLines (ls : List (List String)) (hls : ls ≠ [])
    (hne : ∀ l ∈ ls, l ≠ []) (hdata : recLines ls ≠ []) :
    parseCSVRecords (String.mk (recLines ls)) = ls := by
  rw [parseCSVRecords]
  rw [if_neg (by simpa using hdata)]
  have h := foldl_csvStep_recLines ls [] hls hne
  rw [List.reverse_nil, List.nil_append] at h
  show (((_ : CSVState).field :: _).reverse :: _).reverse.map _ = ls
  rw [h]
  rw [List.map_map]
  have : (fun l => l.map String.mk) ∘ (fun l => l.map String.data)
      = fun (l : List String) => l := by
    funext l
    simp only [Function.comp_apply, List.map_map]
    have : String.mk ∘ String.data = fun (s : String) => s := by
      funext s
      exact string_mk_data s
    rw [this]
    simp
  rw [this]
  simp

theorem rowLookup_map_keys (row : Row) :
    ∀ keys, row.map Prod.fst = keys → keys.Nodup →
    keys.map (rowLookup row) = row.map (fun p => some p.2) := by
  induction row with
  | nil =>
    intro keys hk _
    rw [← hk]
    rfl
  | cons p rs ih =>
    intro keys hk hnodup
    rw [← hk]
    rw [← hk] at hnodup
    simp only [List.map_cons, List.nodup_cons] at hnodup ⊢
    rw [List.cons_eq_cons]
    constructor
    · simp [rowLookup, List.find?]
    · have hstep : ∀ k ∈ rs.map Prod.fst, rowLookup (p :: rs) k = rowLookup rs k := by
        intro k hkm
        have hne : ¬(p.1 == k) = true := by
          simp only [beq_iff_eq]
          intro he
          exact hnodup.1 (he ▸ hkm)
        simp [rowLookup, List.find?, hne]
      rw [List.map_congr_left hstep]
      exact ih (rs.map Prod.fst) rfl hnodup.2

theorem rowVals_map_some (row : Row) (keys : List String)
    (hk : row.map Prod.fst = keys) (hnodup : keys.Nodup)
    (hvals : ∀ p ∈ row, p.2.isSome) :
    (rowVals keys row).map some = row.map Prod.snd := by
  rw [rowVals]
  rw [show (keys.map fun k => csvStringValue (rowLookup row k))
      = (keys.map (rowLookup row)).map csvStringValue by rw [List.map_map]; rfl]
  rw [rowLookup_map_keys row keys hk hnodup]
  rw [List.map_map, List.map_map]
  apply List.map_congr_left
  intro p hp
  have hs := hvals p hp
  cases hsnd : p.2 with
  | none => rw [hsnd] at hs; simp at hs
  | some s => simp [Function.comp, hsnd, csvStringValue]

theorem zip_keys_row (row : Row) (keys : List String)
    (hk : row.map Prod.fst = keys) (hnodup : keys.Nodup)
    (hvals : ∀ p ∈ row, p.2.isSome) :
    keys.zip ((rowVals keys row).map some) = row := by
  rw [rowVals_map_some row keys hk hnodup hvals, ← hk]
  rw [← List.unzip_fst, ← List.unzip_snd, List.zip_unzip]

theorem csvEscapeValue_clean (k : String) (h : csvNeedsQuote k = false) :
    csvEscapeValue k = k := by
  rw [csvEscapeValue]
  simp only [h, Bool.false_eq_true, if_false]
  apply escQuotes_eq_self
  simp only [csvNeedsQuote, Bool.or_eq_false_iff] at h
  exact h.1.2

theorem toCSV_eq_recLines (first : Row) (rest : List Row) (keys : List String)
    (hfirst : first.map Prod.fst = keys)
    (hclean : ∀ k ∈ keys, csvNeedsQuote k = false) :
    toCSV (first :: rest) none
      = String.mk (recLines (keys :: (first :: rest).map (rowVals keys))) := by
  have hfirst' : (first.map fun p => p.1) = keys := hfirst
  have hline : ∀ row : Row,
      (rowVals keys row).map csvEscapeValue
        = keys.map (fun k => csvCell (rowLookup row k)) := by
    intro row
    rw [rowVals, List.map_map]
    rfl
  have hkeysesc : keys.map csvEscapeValue = keys := by
    rw [List.map_congr_left (fun k hkm => csvEscapeValue_clean k (hclean k hkm))]
    simp
  rw [toCSV]
  rw [recLines, string_mk_data]
  simp only [List.map_cons, Option.getD_none]
  congr 1
  rw [List.cons_eq_cons]
  refine ⟨by rw [hfirst', hkeysesc], ?_⟩
  rw [List.cons_eq_cons]
  refine ⟨by rw [hfirst', hline first], ?_⟩
  rw [List.map_map]
  apply List.map_congr_left
  intro row _
  rw [hfirst']
  rw [show ((fun vs => joinSep "," (List.map csvEscapeValue vs)) ∘ rowVals keys) row
      = joinSep "," ((rowVals keys row).map csvEscapeValue) from rfl]
  rw [hline row]

set_option maxHeartbeats 1000000 in
/-- C9: `toCSV` round-trips through the reference CSV parser: for every
uniform row list (same non-empty, duplicate-free, escape-free key list in
every row, string values — the values themselves may contain commas, quotes
and newlines, which the documented quoting rule escapes),
`fromCSV (toCSV rows) = rows`; and for the empty row list `toCSV` returns the
empty string even when an explicit header list is supplied. -/
theorem toCSV_roundTrip (data : List Row) (keys : List String)
    (hk : ∀ r ∈ data, r.map Prod.fst = keys)
    (hnodup : keys.Nodup)
    (hkeys : keys ≠ [])
    (hclean : ∀ k ∈ keys, csvNeedsQuote k = false)
    (hvals : ∀ r ∈ data, ∀ p ∈ r, p.2.isSome) :
    fromCSV (toCSV data none) = data ∧ ∀ headers, toCSV [] headers = "" := by
  refine ⟨?_, fun headers => rfl⟩
  match data, hk, hvals with
  | [], _, _ => rfl
  | first :: rest, hk, hvals =>
    have hfirst : first.map Prod.fst = keys := hk first (by simp)
    rw [toCSV_eq_recLines first rest keys hfirst hclean]
    have hne : ∀ l ∈ (keys :: (first :: rest).map (rowVals keys)), l ≠ [] := by
      intro l hl
      rcases List.mem_cons.mp hl with h | h
      · rw [h]; exact hkeys
      · obtain ⟨row, -, hrow⟩ := List.mem_map.mp h
        rw [← hrow, rowVals]
        simp only [ne_eq, List.map_eq_nil_iff]
        exact hkeys
    have hrecne : recLines (keys :: (first :: rest).map (rowVals keys)) ≠ [] := by
      rw [List.map_cons, recLines_cons]
      simp
    rw [fromCSV]
    rw [parseCSVRecords_recLines _ (by simp) hne hrecne]
    show ((first :: rest).map (rowVals keys)).map
        (fun fs => keys.zip (fs.map (fun v => some v))) = first :: rest
    rw [List.map_map]
    have hrow : ∀ row ∈ (first :: rest),
        ((fun fs => keys.zip (fs.map (fun v => some v))) ∘ rowVals keys) row = row := by
      intro row hrowm
      exact zip_keys_row row keys (hk row hrowm) hnodup (hvals row hrowm)
    rw [List.map_congr_left hrow]
    simp

/-- C9 witness: the round trip on `exampleRows` (values with a comma, a
quote and a newline) and the empty-list boundary case with explicit
headers. -/
theorem toCSV_roundTrip_witness :
    fromCSV (toCSV exampleRows none) = exampleRows ∧
    toCSV [] (some ["x"]) = "" := by
  have h := toCSV_roundTrip exampleRows ["a", "b"]
    (by decide) (by decide) (by decide) (by decide) (by decide)
  exact ⟨h.1, h.2 (some ["x"])⟩

end Downloads
